import Mathlib

/-!
# TeleBlob: the disk cache in front of the Telegram blob store

A shallow embedding of `src/services/cacheService.js` and of `fetchMedia` in
`src/controllers/mediaController.js`.

* The cache directory is a finite list of named artifacts, each with its bytes
  and its modification time in milliseconds.
* `Date.now()` is an explicit argument `now`; one call of an operation reads one
  clock value.
* The collaborators (`mediaRepository.getMediaById`,
  `telegramService.downloadFile`) and the storage layer's failures
  (`fs.writeFile`, `fs.readFile`) are inputs of the model, so that the failure
  paths of the code can be stated.
* `crypto.createHash('md5')` is the MD5 function of RFC 1321 over the UTF-8
  bytes of the identifier.
* `res.setHeader` throws on a value with a character outside tab,
  `0x20..0x7e` and `0x80..0xff`; inside `fetchMedia` that throw reaches the
  `catch` block like any other.
-/

namespace TeleBlob

/-! ## Buffers, errors, files -/

/-- A Node `Buffer`: a finite sequence of bytes. -/
abbrev Bytes := List UInt8

/-- A thrown JavaScript `Error`; the handlers only look at `message`. -/
structure JsError where
  message : String
  deriving DecidableEq, Repr

/-- A persisted artifact: raw bytes and the modification time of the file. -/
structure File where
  content : Bytes
  mtimeMs : Int
  deriving DecidableEq, Repr

/-- The contents of `CACHE_DIR`: entry name and file. Names on a real
directory are pairwise distinct, see `Dir.WF`. -/
abbrev Dir := List (String × File)

/-- No two entries of the directory have the same name. -/
def Dir.WF (d : Dir) : Prop := (d.map Prod.fst).Nodup

instance (d : Dir) : Decidable d.WF := by unfold Dir.WF; infer_instance

/-- A path inside a directory: the directory and the entry name, as
`path.join(dir, name)` builds it from a name without separators. -/
structure Path where
  dir : String
  base : String
  deriving DecidableEq, Repr

/-- Model of `path.join(dir, name)`. -/
def pathJoin (dir name : String) : Path := ⟨dir, name⟩

/-! ## MD5 (RFC 1321), as `crypto.createHash('md5').update(s).digest('hex')` -/

/-- UTF-8 bytes of one code point (`update` encodes a string as UTF-8). -/
def utf8EncodeChar (c : Char) : List Nat :=
  let v := c.toNat
  if v < 0x80 then [v]
  else if v < 0x800 then [0xC0 + v / 64, 0x80 + v % 64]
  else if v < 0x10000 then [0xE0 + v / 4096, 0x80 + v / 64 % 64, 0x80 + v % 64]
  else [0xF0 + v / 262144, 0x80 + v / 4096 % 64, 0x80 + v / 64 % 64, 0x80 + v % 64]

def utf8Encode (s : String) : List Nat :=
  (s.toList.map utf8EncodeChar).flatten

def two32 : Nat := 4294967296

/-- Rotate a 32-bit word left by `n` bits, `0 < n < 32`. -/
def rotl32 (x n : Nat) : Nat :=
  ((x <<< n) ||| (x >>> (32 - n))) % two32

/-- Bitwise complement of a 32-bit word. -/
def not32 (x : Nat) : Nat := 4294967295 - x % two32

/-- The sine table `K[i] = floor(2^32 * |sin (i + 1)|)`. -/
def md5K : List Nat :=
  [0xd76aa478, 0xe8c7b756, 0x242070db, 0xc1bdceee,
   0xf57c0faf, 0x4787c62a, 0xa8304613, 0xfd469501,
   0x698098d8, 0x8b44f7af, 0xffff5bb1, 0x895cd7be,
   0x6b901122, 0xfd987193, 0xa679438e, 0x49b40821,
   0xf61e2562, 0xc040b340, 0x265e5a51, 0xe9b6c7aa,
   0xd62f105d, 0x02441453, 0xd8a1e681, 0xe7d3fbc8,
   0x21e1cde6, 0xc33707d6, 0xf4d50d87, 0x455a14ed,
   0xa9e3e905, 0xfcefa3f8, 0x676f02d9, 0x8d2a4c8a,
   0xfffa3942, 0x8771f681, 0x6d9d6122, 0xfde5380c,
   0xa4beea44, 0x4bdecfa9, 0xf6bb4b60, 0xbebfbc70,
   0x289b7ec6, 0xeaa127fa, 0xd4ef3085, 0x04881d05,
   0xd9d4d039, 0xe6db99e5, 0x1fa27cf8, 0xc4ac5665,
   0xf4292244, 0x432aff97, 0xab9423a7, 0xfc93a039,
   0x655b59c3, 0x8f0ccc92, 0xffeff47d, 0x85845dd1,
   0x6fa87e4f, 0xfe2ce6e0, 0xa3014314, 0x4e0811a1,
   0xf7537e82, 0xbd3af235, 0x2ad7d2bb, 0xeb86d391]

/-- Per-round shift amounts. -/
def md5S : List Nat :=
  [7, 12, 17, 22, 7, 12, 17, 22, 7, 12, 17, 22, 7, 12, 17, 22,
   5, 9, 14, 20, 5, 9, 14, 20, 5, 9, 14, 20, 5, 9, 14, 20,
   4, 11, 16, 23, 4, 11, 16, 23, 4, 11, 16, 23, 4, 11, 16, 23,
   6, 10, 15, 21, 6, 10, 15, 21, 6, 10, 15, 21, 6, 10, 15, 21]

/-- The four 32-bit chaining words. -/
structure Md5State where
  a : Nat
  b : Nat
  c : Nat
  d : Nat
  deriving DecidableEq, Repr

def md5Init : Md5State := ⟨0x67452301, 0xefcdab89, 0x98badcfe, 0x10325476⟩

/-- Message padding: a `0x80` byte, zeros up to 56 mod 64, then the bit length
as a 64-bit little-endian integer. -/
def md5Pad (msg : List Nat) : List Nat :=
  let n := msg.length
  let zeros := (119 - n % 64) % 64
  let bits := (8 * n) % 18446744073709551616
  msg ++ [0x80] ++ List.replicate zeros 0 ++
    (List.range 8).map (fun i => bits / 256 ^ i % 256)

/-- Little-endian 32-bit word `j` of a 64-byte block. -/
def md5Word (block : List Nat) (j : Nat) : Nat :=
  block.getD (4 * j) 0 + 256 * block.getD (4 * j + 1) 0 +
    65536 * block.getD (4 * j + 2) 0 + 16777216 * block.getD (4 * j + 3) 0

/-- One of the 64 operations of the compression function. -/
def md5Step (block : List Nat) (st : Md5State) (i : Nat) : Md5State :=
  let fg : Nat × Nat :=
    if i < 16 then ((st.b &&& st.c) ||| (not32 st.b &&& st.d), i)
    else if i < 32 then ((st.d &&& st.b) ||| (not32 st.d &&& st.c), (5 * i + 1) % 16)
    else if i < 48 then (st.b ^^^ st.c ^^^ st.d, (3 * i + 5) % 16)
    else (st.c ^^^ (st.b ||| not32 st.d), (7 * i) % 16)
  let f := (fg.1 + st.a + md5K.getD i 0 + md5Word block fg.2) % two32
  ⟨st.d, (st.b + rotl32 f (md5S.getD i 0)) % two32, st.b, st.c⟩

/-- Compression of one 64-byte block into the chaining state. -/
def md5Block (st : Md5State) (block : List Nat) : Md5State :=
  let r := (List.range 64).foldl (md5Step block) st
  ⟨(st.a + r.a) % two32, (st.b + r.b) % two32, (st.c + r.c) % two32, (st.d + r.d) % two32⟩

/-- The padded message, block by block. -/
def md5Blocks (padded : List Nat) : List (List Nat) :=
  (List.range (padded.length / 64)).map (fun k => (padded.drop (64 * k)).take 64)

/-- The four little-endian bytes of a 32-bit word. -/
def wordBytesLE (w : Nat) : List Nat :=
  [w % 256, w / 256 % 256, w / 65536 % 256, w / 16777216 % 256]

/-- The 16-byte MD5 digest of a byte string. -/
def md5 (msg : List Nat) : List Nat :=
  let st := (md5Blocks (md5Pad msg)).foldl md5Block md5Init
  wordBytesLE st.a ++ wordBytesLE st.b ++ wordBytesLE st.c ++ wordBytesLE st.d

def hexChars : List Char :=
  ['0', '1', '2', '3', '4', '5', '6', '7', '8', '9', 'a', 'b', 'c', 'd', 'e', 'f']

def hexDigit (n : Nat) : Char := hexChars.getD (n % 16) '0'

/-- Two lower-case hexadecimal digits of a byte. -/
def hexByte (b : Nat) : List Char := [hexDigit (b / 16), hexDigit b]

/-- The text of `digest('hex')`. -/
def hexEncode (bytes : List Nat) : String :=
  String.mk ((bytes.map hexByte).flatten)

/-- The call `crypto.createHash('md5').update(s).digest('hex')`. -/
def md5hex (s : String) : String := hexEncode (md5 (utf8Encode s))

/-! ## Configuration (`src/config/env.js`) -/

/-- The `cache` section of `config`: `CACHE_DIR` and `CACHE_TTL_SECONDS` after
`parseInt`, for a value that parses to an integer. Nothing in `validateConfig`
restricts the TTL, so zero and negative values are configurations too. -/
structure CacheConfig where
  dir : String
  ttlSeconds : Int
  deriving DecidableEq, Repr

/-- The module constant `CACHE_DIR = config.cache.dir`. -/
def CACHE_DIR (cfg : CacheConfig) : String := cfg.dir

/-- The module constant `CACHE_TTL_MS = config.cache.ttlSeconds * 1000`. -/
def CACHE_TTL_MS (cfg : CacheConfig) : Int := cfg.ttlSeconds * 1000

/-! ## The storage layer (`fs-extra`) on the cache directory -/

/-- Failures injected into the storage layer for one call: what `fs.writeFile`
and `fs.readFile` throw, if anything. -/
structure Faults where
  write : Option JsError
  read : Option JsError
  deriving DecidableEq, Repr

/-- A storage layer on which every write and read goes through. -/
def healthy : Faults := ⟨none, none⟩

/-- The file stored under a name, if any. -/
def Dir.find : Dir → String → Option File
  | [], _ => none
  | (n, f) :: rest, name => if n = name then some f else Dir.find rest name

/-- The directory without the entries of a given name. -/
def Dir.erase : Dir → String → Dir
  | [], _ => []
  | (n, f) :: rest, name =>
    if n = name then Dir.erase rest name else (n, f) :: Dir.erase rest name

/-- The error `fs.stat` and `fs.readFile` throw on a missing file. -/
def enoent : JsError := ⟨"ENOENT: no such file or directory"⟩

/-- The call `fs.stat(path)`: the file's metadata, or a throw when it is
missing (the only failure of `stat` in the model). -/
def fsStat (d : Dir) (p : Path) : Except JsError File :=
  match d.find p.base with
  | some f => .ok f
  | none => .error enoent

/-- The call `fs.remove(path)`: deletes the entry; a missing entry is not an
error, and removal itself does not fail in the model. -/
def fsRemove (d : Dir) (p : Path) : Dir :=
  d.erase p.base

/-- The call `fs.readFile(path)`: the whole content, or a throw. -/
def fsReadFile (faults : Faults) (d : Dir) (p : Path) : Except JsError Bytes :=
  match faults.read with
  | some e => .error e
  | none =>
    match d.find p.base with
    | some f => .ok f.content
    | none => .error enoent

/-- The call `fs.writeFile(path, data)` at clock value `now`: the entry is
created or replaced as a whole, with modification time `now`; a failed write
is modelled as leaving the directory as it was (a partially written file is
outside the model). -/
def fsWriteFile (faults : Faults) (d : Dir) (p : Path) (data : Bytes) (now : Int) :
    Except JsError Unit × Dir :=
  match faults.write with
  | some e => (.error e, d)
  | none => (.ok (), (p.base, ⟨data, now⟩) :: d.erase p.base)

/-- The call `fs.readdir(CACHE_DIR)`: the entry names. -/
def fsReaddir (d : Dir) : List String := d.map Prod.fst

/-- The call `fs.emptyDir(CACHE_DIR)`: every entry is deleted, the directory
itself stays; like removal, it does not fail in the model. -/
def fsEmptyDir (_d : Dir) : Dir := []

/-! ## `src/services/cacheService.js` -/

/-- Cache file path of a media id: the MD5 hex digest of the id inside
`CACHE_DIR`. -/
def getCachePath (cfg : CacheConfig) (mediaId : String) : Path :=
  let hash := md5hex mediaId
  pathJoin (CACHE_DIR cfg) hash

/-- Whether the cached file exists and is younger than the TTL; an expired
file is removed. The `catch` turns a failed `stat` into `false`; it would do
the same for a throwing `fs.remove`, a failure the model does not inject. -/
def isCacheValid (cfg : CacheConfig) (now : Int) (d : Dir) (mediaId : String) : Bool × Dir :=
  let cachePath := getCachePath cfg mediaId
  match fsStat d cachePath with
  | .ok stats =>
    let age := now - stats.mtimeMs
    if age < CACHE_TTL_MS cfg then (true, d)
    else (false, fsRemove d cachePath)
  | .error _ => (false, d)

/-- The cached buffer, `none` (JavaScript `null`) when not cached, or the
error thrown by `fs.readFile`; with the directory after the call. -/
def getCachedFile (faults : Faults) (cfg : CacheConfig) (now : Int) (d : Dir)
    (mediaId : String) : Except JsError (Option Bytes) × Dir :=
  let cachePath := getCachePath cfg mediaId
  match isCacheValid cfg now d mediaId with
  | (true, d1) =>
    match fsReadFile faults d1 cachePath with
    | .ok buf => (.ok (some buf), d1)
    | .error e => (.error e, d1)
  | (false, d1) => (.ok none, d1)

/-- Save a buffer to the cache; throws what `fs.writeFile` throws. -/
def cacheFile (faults : Faults) (cfg : CacheConfig) (now : Int) (d : Dir)
    (mediaId : String) (fileBuffer : Bytes) : Except JsError Unit × Dir :=
  let cachePath := getCachePath cfg mediaId
  fsWriteFile faults d cachePath fileBuffer now

/-- The loop of `clearExpiredCache` over the names `fs.readdir` returned:
`stat` each, remove it when its age is at or past the TTL, count the removals.
A failed `stat` throws out of the loop. -/
def clearExpiredLoop (cfg : CacheConfig) (now : Int) :
    List String → Dir → Nat → Except JsError Nat × Dir
  | [], d, deletedCount => (.ok deletedCount, d)
  | file :: files, d, deletedCount =>
    let filePath := pathJoin (CACHE_DIR cfg) file
    match fsStat d filePath with
    | .error e => (.error e, d)
    | .ok stats =>
      let age := now - stats.mtimeMs
      if age ≥ CACHE_TTL_MS cfg then
        clearExpiredLoop cfg now files (fsRemove d filePath) (deletedCount + 1)
      else
        clearExpiredLoop cfg now files d deletedCount

/-- Clear expired cache files; returns the number of files deleted. -/
def clearExpiredCache (cfg : CacheConfig) (now : Int) (d : Dir) : Except JsError Nat × Dir :=
  let files := fsReaddir d
  clearExpiredLoop cfg now files d 0

/-- Clear all cache. -/
def clearAllCache (d : Dir) : Dir := fsEmptyDir d

/-! ## `fetchMedia` in `src/controllers/mediaController.js` -/

/-- The fields of a Firestore media document that `fetchMedia` reads. -/
structure Metadata where
  telegram_file_id : String
  file_type : String
  original_name : String
  deriving DecidableEq, Repr

/-- What `fetchMedia` puts on `res`: either the file with its three headers
(status 200, the default), or a JSON error body with a status code. -/
inductive Response where
  | send (contentType : String) (contentLength : Nat) (contentDisposition : String)
      (body : Bytes)
  | json (status : Nat) (success : Bool) (error : String) (message : Option String)
  deriving DecidableEq, Repr

/-- The HTTP status of a response. -/
def Response.status : Response → Nat
  | .send _ _ _ _ => 200
  | .json st _ _ _ => st

/-- The collaborator and service calls `fetchMedia` makes, in order. -/
inductive Call where
  | getMediaById (mediaId : String)
  | getCachedFile (mediaId : String)
  | downloadFile (telegramFileId : String)
  | cacheFile (mediaId : String) (fileBuffer : Bytes)
  deriving DecidableEq, Repr

/-- The surroundings of one request: configuration, clock, storage failures,
the metadata repository and the Telegram download. -/
structure Env where
  cfg : CacheConfig
  now : Int
  faults : Faults
  getMediaById : String → Except JsError (Option Metadata)
  downloadFile : String → Except JsError Bytes

/-- Result of one request: the response, the cache directory afterwards and
the calls made. -/
structure Outcome where
  response : Response
  dir : Dir
  calls : List Call
  deriving DecidableEq, Repr

/-- The `404` answer for an id without metadata. -/
def notFound : Response := .json 404 false "Media not found" none

/-- The answer of the `catch` block. -/
def serverError (error : JsError) : Response :=
  .json 500 false "Failed to fetch file" (some error.message)

/-- Node's header-value check (`checkInvalidHeaderChar`): a character is
legal when it is a tab, or in `0x20..0x7e`, or in `0x80..0xff`. -/
def validHeaderChar (c : Char) : Bool :=
  decide (c.toNat = 9 ∨ (32 ≤ c.toNat ∧ c.toNat ≤ 126) ∨ (128 ≤ c.toNat ∧ c.toNat ≤ 255))

/-- A header value all of whose characters are legal. -/
def validHeaderValue (value : String) : Bool := value.toList.all validHeaderChar

/-- The `TypeError` of `res.setHeader` on an illegal character. -/
def invalidHeaderChar (name : String) : JsError :=
  ⟨"Invalid character in header content [\"" ++ name ++ "\"]"⟩

/-- The call `res.setHeader(name, value)` for a string value: throws when the
value holds an illegal character. -/
def setHeader (name value : String) : Except JsError Unit :=
  if validHeaderValue value then .ok () else .error (invalidHeaderChar name)

/-- The value given to `Content-Disposition`. -/
def contentDisposition (metadata : Metadata) : String :=
  "inline; filename=\"" ++ metadata.original_name ++ "\""

/-- The three `res.setHeader` calls of `fetchMedia`, in order. The value of
`Content-Length` is a number and is always legal. -/
def setFileHeaders (metadata : Metadata) : Except JsError Unit :=
  match setHeader "Content-Type" metadata.file_type with
  | .error e => .error e
  | .ok () =>
    match setHeader "Content-Disposition" (contentDisposition metadata) with
    | .error e => .error e
    | .ok () => .ok ()

/-- The call `res.send(fileBuffer)` after the headers were set, for a plain
`GET` without conditional headers: status 200, the buffer as body; for a
buffer, Express fills an empty `Content-Type` with `application/octet-stream`.
Of the headers, the model keeps the three the handler sets. -/
def sendFile (metadata : Metadata) (fileBuffer : Bytes) : Response :=
  .send (if metadata.file_type = "" then "application/octet-stream" else metadata.file_type)
    fileBuffer.length (contentDisposition metadata) fileBuffer

/-- The handler of `GET /api/media/:id`, for `req.params.id = mediaId`. Every
throw inside the `try` (metadata lookup, cache read, download, cache write,
`res.setHeader`) is answered by the `catch` block. -/
def fetchMedia (env : Env) (d : Dir) (mediaId : String) : Outcome :=
  match env.getMediaById mediaId with
  | .error e => ⟨serverError e, d, [.getMediaById mediaId]⟩
  | .ok none => ⟨notFound, d, [.getMediaById mediaId]⟩
  | .ok (some metadata) =>
    match getCachedFile env.faults env.cfg env.now d mediaId with
    | (.error e, d1) =>
      ⟨serverError e, d1, [.getMediaById mediaId, .getCachedFile mediaId]⟩
    | (.ok (some fileBuffer), d1) =>
      match setFileHeaders metadata with
      | .error e =>
        ⟨serverError e, d1, [.getMediaById mediaId, .getCachedFile mediaId]⟩
      | .ok () =>
        ⟨sendFile metadata fileBuffer, d1, [.getMediaById mediaId, .getCachedFile mediaId]⟩
    | (.ok none, d1) =>
      match env.downloadFile metadata.telegram_file_id with
      | .error e =>
        ⟨serverError e, d1,
          [.getMediaById mediaId, .getCachedFile mediaId,
           .downloadFile metadata.telegram_file_id]⟩
      | .ok fileBuffer =>
        match cacheFile env.faults env.cfg env.now d1 mediaId fileBuffer with
        | (.error e, d2) =>
          ⟨serverError e, d2,
            [.getMediaById mediaId, .getCachedFile mediaId,
             .downloadFile metadata.telegram_file_id, .cacheFile mediaId fileBuffer]⟩
        | (.ok (), d2) =>
          match setFileHeaders metadata with
          | .error e =>
            ⟨serverError e, d2,
              [.getMediaById mediaId, .getCachedFile mediaId,
               .downloadFile metadata.telegram_file_id, .cacheFile mediaId fileBuffer]⟩
          | .ok () =>
            ⟨sendFile metadata fileBuffer, d2,
              [.getMediaById mediaId, .getCachedFile mediaId,
               .downloadFile metadata.telegram_file_id, .cacheFile mediaId fileBuffer]⟩

/-- Number of Telegram downloads among the calls of a request. -/
def downloadCount (calls : List Call) : Nat :=
  (calls.filter (fun c => match c with | .downloadFile _ => true | _ => false)).length

/-- Number of cache lookups (`getCachedFile`) among the calls of a request. -/
def cacheLookupCount (calls : List Call) : Nat :=
  (calls.filter (fun c => match c with | .getCachedFile _ => true | _ => false)).length

/-- Number of `cacheFile` calls among the calls of a request. -/
def cacheWriteCount (calls : List Call) : Nat :=
  (calls.filter (fun c => match c with | .cacheFile _ _ => true | _ => false)).length

/-- Whether the response is the success answer carrying a file. -/
def Response.isSuccess : Response → Bool
  | .send _ _ _ _ => true
  | .json _ _ _ _ => false

/-- The bytes of a success answer. -/
def Response.body? : Response → Option Bytes
  | .send _ _ _ body => some body
  | .json _ _ _ _ => none

/-! ## Vocabulary of the statements -/

/-- Age at or past the TTL at clock `now`: the test of `clearExpiredCache`. -/
def isExpired (cfg : CacheConfig) (now : Int) (e : String × File) : Bool :=
  decide (now - e.2.mtimeMs ≥ CACHE_TTL_MS cfg)

/-- Age below the TTL at clock `now`: the test of `isCacheValid`. -/
def isFresh (cfg : CacheConfig) (now : Int) (e : String × File) : Bool :=
  decide (now - e.2.mtimeMs < CACHE_TTL_MS cfg)

/-! ## Concrete requests used as examples -/

/-- The default configuration of `env.js`: `./cache`, one hour. -/
def cfgDefault : CacheConfig := ⟨"./cache", 3600⟩

/-- A configuration with `CACHE_TTL_SECONDS=0`. -/
def cfgZeroTtl : CacheConfig := ⟨"./cache", 0⟩

def metaPhoto : Metadata := ⟨"tg-file-1", "image/png", "cat.png"⟩

/-- Metadata whose file name has a character outside Latin-1. -/
def metaCat : Metadata := ⟨"tg-file-2", "image/png", "猫.png"⟩

/-- A repository that knows the single id `m2`, with `metaCat`. -/
def repoCat (mediaId : String) : Except JsError (Option Metadata) :=
  if mediaId = "m2" then .ok (some metaCat) else .ok none

/-- A repository that knows the single id `m1`. -/
def repoOne (mediaId : String) : Except JsError (Option Metadata) :=
  if mediaId = "m1" then .ok (some metaPhoto) else .ok none

/-- A Telegram download that returns three bytes for every file id. -/
def downloadOk (_fileId : String) : Except JsError Bytes := .ok [1, 2, 3]

/-- A Telegram download that fails for every file id. -/
def downloadFails (_fileId : String) : Except JsError Bytes :=
  .error ⟨"Failed to download from Telegram: timeout"⟩

def diskFull : JsError := ⟨"ENOSPC: no space left on device"⟩

def readBroken : JsError := ⟨"EIO: i/o error, read"⟩

/-- A request at clock 1000 whose cache write fails with `ENOSPC`. -/
def envWriteFails : Env := ⟨cfgDefault, 1000, ⟨some diskFull, none⟩, repoOne, downloadOk⟩

/-- A request at a given clock value on a healthy disk. -/
def envOk (now : Int) : Env := ⟨cfgDefault, now, healthy, repoOne, downloadOk⟩

/-- A request for `repoCat` at a given clock value on a healthy disk. -/
def envCat (now : Int) : Env := ⟨cfgDefault, now, healthy, repoCat, downloadOk⟩

/-- A request at clock 1000 whose Telegram download fails. -/
def envDownloadFails : Env := ⟨cfgDefault, 1000, healthy, repoOne, downloadFails⟩

/-- A request at clock 1000 for which every storage and Telegram call would
fail, were it made. -/
def envAllFail : Env :=
  ⟨cfgDefault, 1000, ⟨some diskFull, some readBroken⟩, repoOne, downloadFails⟩

/-- A request at clock 1000 whose cache read fails with `EIO`. -/
def envReadFails : Env := ⟨cfgDefault, 1000, ⟨none, some readBroken⟩, repoOne, downloadOk⟩

/-! ## Facts about the digest text -/

theorem md5_length (msg : List Nat) : (md5 msg).length = 16 := by
  simp [md5, wordBytesLE]

theorem hexEncode_length (bytes : List Nat) : (hexEncode bytes).length = 2 * bytes.length := by
  unfold hexEncode
  rw [String.length_mk]
  induction bytes with
  | nil => rfl
  | cons b rest ih =>
    simp only [List.map_cons, List.flatten_cons, List.length_append, ih, List.length_cons]
    simp [hexByte]
    omega

/-- The digest text always has 32 characters. -/
theorem md5hex_length (s : String) : (md5hex s).length = 32 := by
  rw [md5hex, hexEncode_length, md5_length]

theorem hexDigit_mem (n : Nat) : hexDigit n ∈ hexChars := by
  have h : ∀ k, k < 16 → hexChars.getD k '0' ∈ hexChars := by decide
  exact h (n % 16) (Nat.mod_lt n (by decide))

/-- Every character of the digest text is one of `0-9a-f`. -/
theorem hexEncode_chars (bytes : List Nat) :
    ∀ c ∈ (hexEncode bytes).toList, c ∈ hexChars := by
  unfold hexEncode
  intro c hc
  have hc2 : c ∈ (bytes.map hexByte).flatten := hc
  obtain ⟨l, hl, hcl⟩ := List.mem_flatten.1 hc2
  obtain ⟨b, _, hb⟩ := List.mem_map.1 hl
  subst hb
  simp only [hexByte, List.mem_cons, List.mem_singleton, List.not_mem_nil, or_false] at hcl
  rcases hcl with h | h <;> (subst h; exact hexDigit_mem _)

/-! ## Facts about the response headers -/

theorem validHeaderValue_append (a b : String) :
    validHeaderValue (a ++ b) = (validHeaderValue a && validHeaderValue b) := by
  simp [validHeaderValue, String.toList, List.all_append]

/-- The value of `Content-Disposition` is legal exactly when the file name is. -/
theorem validHeaderValue_contentDisposition (metadata : Metadata) :
    validHeaderValue (contentDisposition metadata) = validHeaderValue metadata.original_name := by
  have h1 : validHeaderValue "inline; filename=\"" = true := by decide
  have h2 : validHeaderValue "\"" = true := by decide
  simp [contentDisposition, validHeaderValue_append, h1, h2]

/-- With a legal file type and a legal file name no `setHeader` throws. -/
theorem setFileHeaders_ok (metadata : Metadata)
    (htype : validHeaderValue metadata.file_type = true)
    (hname : validHeaderValue metadata.original_name = true) :
    setFileHeaders metadata = .ok () := by
  simp [setFileHeaders, setHeader, htype, validHeaderValue_contentDisposition, hname]

/-! ## Facts about the directory operations -/

theorem find_erase_self (d : Dir) (name : String) :
    Dir.find (d.erase name) name = none := by
  induction d with
  | nil => rfl
  | cons e rest ih =>
    obtain ⟨n, f⟩ := e
    by_cases h : n = name
    · simp [Dir.erase, h, ih]
    · simp [Dir.erase, h, Dir.find, ih]

theorem find_erase_other (d : Dir) (name other : String) (h : other ≠ name) :
    Dir.find (d.erase name) other = Dir.find d other := by
  induction d with
  | nil => rfl
  | cons e rest ih =>
    obtain ⟨n, f⟩ := e
    by_cases hn : n = name
    · have hno : ¬ name = other := fun hh => h hh.symm
      simp [Dir.erase, hn, Dir.find, ih, hno]
    · simp [Dir.erase, hn, Dir.find, ih]

theorem find_none_of_not_mem (d : Dir) (name : String)
    (h : name ∉ d.map Prod.fst) : Dir.find d name = none := by
  induction d with
  | nil => rfl
  | cons e rest ih =>
    obtain ⟨n, f⟩ := e
    simp only [List.map_cons, List.mem_cons, not_or] at h
    simp [Dir.find, Ne.symm h.1, ih h.2]

theorem find_append_of_not_mem (pre suf : Dir) (name : String)
    (h : name ∉ pre.map Prod.fst) : Dir.find (pre ++ suf) name = Dir.find suf name := by
  induction pre with
  | nil => rfl
  | cons e rest ih =>
    obtain ⟨n, f⟩ := e
    simp only [List.map_cons, List.mem_cons, not_or] at h
    simp [Dir.find, Ne.symm h.1, ih h.2]

theorem erase_of_not_mem (d : Dir) (name : String)
    (h : name ∉ d.map Prod.fst) : d.erase name = d := by
  induction d with
  | nil => rfl
  | cons e rest ih =>
    obtain ⟨n, f⟩ := e
    simp only [List.map_cons, List.mem_cons, not_or] at h
    simp [Dir.erase, Ne.symm h.1, ih h.2]

theorem erase_append (pre suf : Dir) (name : String) :
    Dir.erase (pre ++ suf) name = pre.erase name ++ suf.erase name := by
  induction pre with
  | nil => rfl
  | cons e rest ih =>
    obtain ⟨n, f⟩ := e
    by_cases hn : n = name
    · simp [Dir.erase, hn, ih]
    · simp [Dir.erase, hn, ih]

theorem erase_sublist (d : Dir) (name : String) : List.Sublist (d.erase name) d := by
  induction d with
  | nil => exact List.Sublist.slnil
  | cons e rest ih =>
    obtain ⟨n, f⟩ := e
    by_cases hn : n = name
    · simp only [Dir.erase, hn, if_true]
      exact List.Sublist.cons _ (hn ▸ ih)
    · simp only [Dir.erase, hn, if_false]
      exact List.Sublist.cons₂ _ ih

theorem not_mem_names_erase (d : Dir) (name : String) :
    name ∉ (d.erase name).map Prod.fst := by
  induction d with
  | nil => simp [Dir.erase]
  | cons e rest ih =>
    obtain ⟨n, f⟩ := e
    by_cases hn : n = name
    · simpa [Dir.erase, hn] using ih
    · simp only [Dir.erase, hn, if_false, List.map_cons, List.mem_cons, not_or]
      exact ⟨fun hh => hn hh.symm, ih⟩

theorem wf_erase (d : Dir) (name : String) (h : d.WF) : Dir.WF (d.erase name) := by
  unfold Dir.WF at *
  exact (List.Sublist.map Prod.fst (erase_sublist d name)).nodup h

theorem wf_filter (d : Dir) (p : String × File → Bool) (h : d.WF) : Dir.WF (d.filter p) := by
  unfold Dir.WF at *
  exact (List.Sublist.map Prod.fst (List.filter_sublist d)).nodup h

/-- The lookup of a miss leaves nothing under the key. -/
theorem getCachedFile_miss_find (faults : Faults) (cfg : CacheConfig) (now : Int) (d : Dir)
    (mediaId : String) (h : (getCachedFile faults cfg now d mediaId).1 = .ok none) :
    Dir.find (getCachedFile faults cfg now d mediaId).2 (getCachePath cfg mediaId).base = none := by
  unfold getCachedFile isCacheValid fsStat at *
  cases hf : Dir.find d (getCachePath cfg mediaId).base with
  | none => simp [hf]
  | some f =>
    simp only [hf] at h ⊢
    by_cases hage : now - f.mtimeMs < CACHE_TTL_MS cfg
    · simp only [hage, if_true] at h
      unfold fsReadFile at h
      cases hr : faults.read with
      | none => simp [hr, hf] at h
      | some e => simp [hr] at h
    · simp only [hage, if_false]
      exact find_erase_self d _

/-! ## C1: a failed cache write after a successful download -/

/-- C1, as stated, fails: for the known id `m1` on an empty cache directory the
lookup is a miss, the download returns the bytes `[1, 2, 3]`, `cacheFile`
throws `ENOSPC`, and `fetchMedia` answers with the 500 error body of its
`catch` block, not with a success response carrying the bytes. -/
theorem fetchMedia_write_failure_counterexample :
    envWriteFails.getMediaById "m1" = .ok (some metaPhoto) ∧
    (getCachedFile envWriteFails.faults envWriteFails.cfg envWriteFails.now [] "m1").1
      = .ok none ∧
    envWriteFails.downloadFile metaPhoto.telegram_file_id = .ok [1, 2, 3] ∧
    (cacheFile envWriteFails.faults envWriteFails.cfg envWriteFails.now [] "m1" [1, 2, 3]).1
      = .error diskFull ∧
    (fetchMedia envWriteFails [] "m1").response
      = .json 500 false "Failed to fetch file" (some "ENOSPC: no space left on device") ∧
    (fetchMedia envWriteFails [] "m1").response.isSuccess = false ∧
    (fetchMedia envWriteFails [] "m1").response.body? ≠ some [1, 2, 3] := by
  refine ⟨rfl, rfl, rfl, rfl, rfl, rfl, ?_⟩
  intro h
  exact absurd h (by decide)

/-- C1, amended: for an id with known metadata that is a cache miss, when the
download succeeds with bytes `X` and `cacheFile` then throws `e`, `fetchMedia`
answers with the server-error response: status 500, `success` false, `error`
`Failed to fetch file` and `message` `e.message`, with no bytes; the download
and the `cacheFile` call were each made once. -/
theorem fetchMedia_write_failure_is_server_error (env : Env) (d : Dir) (mediaId : String)
    (metadata : Metadata) (X : Bytes) (e : JsError)
    (hmeta : env.getMediaById mediaId = .ok (some metadata))
    (hmiss : (getCachedFile env.faults env.cfg env.now d mediaId).1 = .ok none)
    (hdl : env.downloadFile metadata.telegram_file_id = .ok X)
    (hwrite : (cacheFile env.faults env.cfg env.now
      (getCachedFile env.faults env.cfg env.now d mediaId).2 mediaId X).1 = .error e) :
    (fetchMedia env d mediaId).response
      = .json 500 false "Failed to fetch file" (some e.message) ∧
    (fetchMedia env d mediaId).response.status = 500 ∧
    (fetchMedia env d mediaId).response.isSuccess = false ∧
    (fetchMedia env d mediaId).response.body? = none ∧
    downloadCount (fetchMedia env d mediaId).calls = 1 ∧
    cacheWriteCount (fetchMedia env d mediaId).calls = 1 := by
  unfold fetchMedia
  rw [hmeta]
  rcases hg : getCachedFile env.faults env.cfg env.now d mediaId with ⟨r, d1⟩
  rw [hg] at hmiss hwrite
  simp only at hmiss hwrite
  subst hmiss
  simp only [hdl]
  rcases hc : cacheFile env.faults env.cfg env.now d1 mediaId X with ⟨w, d2⟩
  rw [hc] at hwrite
  simp only at hwrite
  subst hwrite
  simp [serverError, Response.status, Response.isSuccess, Response.body?, downloadCount,
    cacheWriteCount]

/-- Witness of `fetchMedia_write_failure_is_server_error`: the request of the
counterexample. -/
theorem fetchMedia_write_failure_is_server_error_witness :
    (fetchMedia envWriteFails [] "m1").response
      = .json 500 false "Failed to fetch file" (some "ENOSPC: no space left on device") ∧
    (fetchMedia envWriteFails [] "m1").response.status = 500 ∧
    (fetchMedia envWriteFails [] "m1").response.isSuccess = false ∧
    (fetchMedia envWriteFails [] "m1").response.body? = none ∧
    downloadCount (fetchMedia envWriteFails [] "m1").calls = 1 ∧
    cacheWriteCount (fetchMedia envWriteFails [] "m1").calls = 1 :=
  fetchMedia_write_failure_is_server_error envWriteFails [] "m1" metaPhoto [1, 2, 3] diskFull
    rfl rfl rfl rfl

/-! ## C2: cache-aside on a healthy disk -/

/-- A lookup on an empty directory is a miss and leaves it empty. -/
theorem getCachedFile_empty (faults : Faults) (cfg : CacheConfig) (now : Int)
    (mediaId : String) : getCachedFile faults cfg now [] mediaId = (.ok none, []) := rfl

/-- A lookup of a present, fresh artifact on a healthy disk returns its bytes
and leaves the directory as it was. -/
theorem getCachedFile_fresh (cfg : CacheConfig) (now : Int) (d : Dir) (mediaId : String)
    (f : File) (hf : Dir.find d (getCachePath cfg mediaId).base = some f)
    (hage : now - f.mtimeMs < CACHE_TTL_MS cfg) :
    getCachedFile healthy cfg now d mediaId = (.ok (some f.content), d) := by
  simp [getCachedFile, isCacheValid, fsStat, fsReadFile, healthy, hf, hage]

/-- The directory after a successful write holds the new file under the key. -/
theorem find_cons_self (name : String) (f : File) (d : Dir) :
    Dir.find ((name, f) :: d) name = some f := by
  simp [Dir.find]

/-- C2, as stated, fails: from an empty cache directory, with a one-hour TTL,
known metadata for `m2` and a download that returns `[1, 2, 3]`, the first
`fetchMedia` downloads once and caches the bytes, but `res.setHeader` throws
on the file name `猫.png` and the answer is the 500 error body, not the
bytes. -/
theorem fetchMedia_cache_aside_counterexample :
    0 < CACHE_TTL_MS (envCat 1000).cfg ∧
    (envCat 1000).getMediaById "m2" = .ok (some metaCat) ∧
    (envCat 1000).downloadFile metaCat.telegram_file_id = .ok [1, 2, 3] ∧
    setFileHeaders metaCat = .error (invalidHeaderChar "Content-Disposition") ∧
    (fetchMedia (envCat 1000) [] "m2").response
      = .json 500 false "Failed to fetch file"
          (some "Invalid character in header content [\"Content-Disposition\"]") ∧
    downloadCount (fetchMedia (envCat 1000) [] "m2").calls = 1 ∧
    (fetchMedia (envCat 1000) [] "m2").response.isSuccess = false ∧
    (fetchMedia (envCat 1000) [] "m2").response.body? ≠ some [1, 2, 3] := by
  refine ⟨by decide, rfl, rfl, rfl, rfl, rfl, rfl, ?_⟩
  intro h
  exact absurd h (by decide)

/-- C2, amended. Starting from an empty cache directory, with TTL > 0, known
metadata for `A` and a download that returns `X`, on a healthy disk: the first
`fetchMedia A` (clock `now1`) downloads exactly once, and a second
`fetchMedia A` at a clock `now2` with `now2 - now1 < TTL` downloads zero
times; when moreover the metadata's file type and file name are legal header
values, both requests answer with status 200 and body `X`. -/
theorem fetchMedia_cache_aside (cfg : CacheConfig) (now1 now2 : Int)
    (getMediaById : String → Except JsError (Option Metadata))
    (downloadFile : String → Except JsError Bytes)
    (A : String) (metadata : Metadata) (X : Bytes)
    (_httl : 0 < CACHE_TTL_MS cfg)
    (hmeta : getMediaById A = .ok (some metadata))
    (hdl : downloadFile metadata.telegram_file_id = .ok X)
    (hclock : now2 - now1 < CACHE_TTL_MS cfg) :
    downloadCount (fetchMedia ⟨cfg, now1, healthy, getMediaById, downloadFile⟩ [] A).calls
      = 1 ∧
    downloadCount (fetchMedia ⟨cfg, now2, healthy, getMediaById, downloadFile⟩
      (fetchMedia ⟨cfg, now1, healthy, getMediaById, downloadFile⟩ [] A).dir A).calls
      = 0 ∧
    (validHeaderValue metadata.file_type = true →
      validHeaderValue metadata.original_name = true →
      (fetchMedia ⟨cfg, now1, healthy, getMediaById, downloadFile⟩ [] A).response
        = sendFile metadata X ∧
      (fetchMedia ⟨cfg, now1, healthy, getMediaById, downloadFile⟩ [] A).response.status
        = 200 ∧
      (fetchMedia ⟨cfg, now1, healthy, getMediaById, downloadFile⟩ [] A).response.body?
        = some X ∧
      (fetchMedia ⟨cfg, now2, healthy, getMediaById, downloadFile⟩
        (fetchMedia ⟨cfg, now1, healthy, getMediaById, downloadFile⟩ [] A).dir A).response
        = sendFile metadata X ∧
      (fetchMedia ⟨cfg, now2, healthy, getMediaById, downloadFile⟩
        (fetchMedia ⟨cfg, now1, healthy, getMediaById, downloadFile⟩ [] A).dir
          A).response.status
        = 200 ∧
      (fetchMedia ⟨cfg, now2, healthy, getMediaById, downloadFile⟩
        (fetchMedia ⟨cfg, now1, healthy, getMediaById, downloadFile⟩ [] A).dir
          A).response.body?
        = some X) := by
  have hit : getCachedFile healthy cfg now2 [((getCachePath cfg A).base, ⟨X, now1⟩)] A
      = (.ok (some X), [((getCachePath cfg A).base, ⟨X, now1⟩)]) :=
    getCachedFile_fresh cfg now2 _ A ⟨X, now1⟩ (find_cons_self _ _ _) hclock
  cases hs : setFileHeaders metadata with
  | error e =>
    have first : fetchMedia ⟨cfg, now1, healthy, getMediaById, downloadFile⟩ [] A
        = ⟨serverError e, [((getCachePath cfg A).base, ⟨X, now1⟩)],
            [.getMediaById A, .getCachedFile A, .downloadFile metadata.telegram_file_id,
             .cacheFile A X]⟩ := by
      simp [fetchMedia, hmeta, getCachedFile_empty, hdl, cacheFile, fsWriteFile, healthy,
        Dir.erase, hs]
    have second : fetchMedia ⟨cfg, now2, healthy, getMediaById, downloadFile⟩
        [((getCachePath cfg A).base, ⟨X, now1⟩)] A
        = ⟨serverError e, [((getCachePath cfg A).base, ⟨X, now1⟩)],
            [.getMediaById A, .getCachedFile A]⟩ := by
      simp [fetchMedia, hmeta, hit, hs]
    rw [first]
    simp only [second]
    refine ⟨by simp [downloadCount], by simp [downloadCount], ?_⟩
    intro htype hname
    rw [setFileHeaders_ok metadata htype hname] at hs
    cases hs
  | ok u =>
    have first : fetchMedia ⟨cfg, now1, healthy, getMediaById, downloadFile⟩ [] A
        = ⟨sendFile metadata X, [((getCachePath cfg A).base, ⟨X, now1⟩)],
            [.getMediaById A, .getCachedFile A, .downloadFile metadata.telegram_file_id,
             .cacheFile A X]⟩ := by
      simp [fetchMedia, hmeta, getCachedFile_empty, hdl, cacheFile, fsWriteFile, healthy,
        Dir.erase, hs]
    have second : fetchMedia ⟨cfg, now2, healthy, getMediaById, downloadFile⟩
        [((getCachePath cfg A).base, ⟨X, now1⟩)] A
        = ⟨sendFile metadata X, [((getCachePath cfg A).base, ⟨X, now1⟩)],
            [.getMediaById A, .getCachedFile A]⟩ := by
      simp [fetchMedia, hmeta, hit, hs]
    rw [first]
    simp only [second]
    refine ⟨by simp [downloadCount], by simp [downloadCount], ?_⟩
    intro _ _
    simp [sendFile, Response.body?, Response.status]

/-- Witness of `fetchMedia_cache_aside`: id `m1` with file type `image/png`
and file name `cat.png`, one-hour TTL, first request at clock 1000, second at
clock 2000. -/
theorem fetchMedia_cache_aside_witness :
    downloadCount (fetchMedia (envOk 1000) [] "m1").calls = 1 ∧
    downloadCount (fetchMedia (envOk 2000) (fetchMedia (envOk 1000) [] "m1").dir "m1").calls
      = 0 ∧
    (fetchMedia (envOk 1000) [] "m1").response
      = .send "image/png" 3 "inline; filename=\"cat.png\"" [1, 2, 3] ∧
    (fetchMedia (envOk 1000) [] "m1").response.body? = some [1, 2, 3] ∧
    (fetchMedia (envOk 2000) (fetchMedia (envOk 1000) [] "m1").dir "m1").response
      = .send "image/png" 3 "inline; filename=\"cat.png\"" [1, 2, 3] ∧
    (fetchMedia (envOk 2000) (fetchMedia (envOk 1000) [] "m1").dir "m1").response.body?
      = some [1, 2, 3] :=
  have h := fetchMedia_cache_aside cfgDefault 1000 2000 repoOne downloadOk "m1" metaPhoto
    [1, 2, 3] (by decide) rfl rfl (by decide)
  have hv := h.2.2 (by decide) (by decide)
  ⟨h.1, h.2.1, hv.1, hv.2.2.1, hv.2.2.2.1, hv.2.2.2.2.2⟩

/-! ## C3: write then read -/

/-- A lookup of a present artifact whose age is at or past the TTL is a miss
and removes the artifact, whatever the disk does on reads. -/
theorem getCachedFile_stale (faults : Faults) (cfg : CacheConfig) (now : Int) (d : Dir)
    (mediaId : String) (f : File)
    (hf : Dir.find d (getCachePath cfg mediaId).base = some f)
    (hage : CACHE_TTL_MS cfg ≤ now - f.mtimeMs) :
    getCachedFile faults cfg now d mediaId
      = (.ok none, fsRemove d (getCachePath cfg mediaId)) := by
  have h : ¬ now - f.mtimeMs < CACHE_TTL_MS cfg := not_lt.mpr hage
  simp [getCachedFile, isCacheValid, fsStat, hf, h]

/-- A lookup of an absent artifact is a miss and changes nothing. -/
theorem getCachedFile_absent (faults : Faults) (cfg : CacheConfig) (now : Int) (d : Dir)
    (mediaId : String) (hf : Dir.find d (getCachePath cfg mediaId).base = none) :
    getCachedFile faults cfg now d mediaId = (.ok none, d) := by
  simp [getCachedFile, isCacheValid, fsStat, hf]

/-- A write on a healthy disk succeeds and puts the new file first. -/
theorem cacheFile_healthy (cfg : CacheConfig) (now : Int) (d : Dir) (mediaId : String)
    (b : Bytes) :
    cacheFile healthy cfg now d mediaId b
      = (.ok (), ((getCachePath cfg mediaId).base, ⟨b, now⟩)
          :: d.erase (getCachePath cfg mediaId).base) := rfl

/-- C3, as stated, fails: with `CACHE_TTL_SECONDS=0` the artifact written at
clock 1000 has age `0`, which is not below the TTL of `0`, so the read that
follows at the same clock value returns `null` and deletes the artifact. -/
theorem cacheFile_getCachedFile_counterexample :
    (cacheFile healthy cfgZeroTtl 1000 [] "m1" [1, 2, 3]).1 = .ok () ∧
    getCachedFile healthy cfgZeroTtl 1000
      (cacheFile healthy cfgZeroTtl 1000 [] "m1" [1, 2, 3]).2 "m1" = (.ok none, []) := by
  refine ⟨rfl, ?_⟩
  rw [cacheFile_healthy]
  rw [getCachedFile_stale healthy cfgZeroTtl 1000 _ "m1" ⟨[1, 2, 3], 1000⟩
    (find_cons_self _ _ _) (by decide)]
  simp [fsRemove, Dir.erase]

/-- C3, amended: when the TTL is positive, for every identifier, every byte
sequence (the empty one included) and every prior directory, on a healthy
disk `cacheFile i b` succeeds and `getCachedFile i` at the same clock value
returns exactly `b`, leaving the directory as the write made it. -/
theorem cacheFile_getCachedFile_roundtrip (cfg : CacheConfig) (now : Int) (d : Dir)
    (mediaId : String) (b : Bytes) (httl : 0 < CACHE_TTL_MS cfg) :
    (cacheFile healthy cfg now d mediaId b).1 = .ok () ∧
    getCachedFile healthy cfg now (cacheFile healthy cfg now d mediaId b).2 mediaId
      = (.ok (some b), (cacheFile healthy cfg now d mediaId b).2) := by
  refine ⟨rfl, ?_⟩
  rw [cacheFile_healthy]
  exact getCachedFile_fresh cfg now _ mediaId ⟨b, now⟩ (find_cons_self _ _ _)
    (by simpa using httl)

/-- Witness of `cacheFile_getCachedFile_roundtrip`: the empty buffer written
over a directory that already holds another entry. -/
theorem cacheFile_getCachedFile_roundtrip_witness :
    (cacheFile healthy cfgDefault 5 [("other", ⟨[9], 0⟩)] "m1" []).1 = .ok () ∧
    getCachedFile healthy cfgDefault 5
      (cacheFile healthy cfgDefault 5 [("other", ⟨[9], 0⟩)] "m1" []).2 "m1"
      = (.ok (some []), (cacheFile healthy cfgDefault 5 [("other", ⟨[9], 0⟩)] "m1" []).2) :=
  cacheFile_getCachedFile_roundtrip cfgDefault 5 [("other", ⟨[9], 0⟩)] "m1" [] (by decide)

/-! ## C4: the freshness boundary -/

/-- C4. For an artifact stored under the key of `i` with timestamp `t`, on a
healthy disk `getCachedFile i` at clock `now` returns the artifact's bytes when
`now - t < TTL`; when `now - t ≥ TTL` it returns `null` and afterwards no
artifact exists under the key; and when no artifact is stored under the key it
returns `null`. -/
theorem getCachedFile_freshness_boundary (cfg : CacheConfig) (now : Int) (d : Dir)
    (mediaId : String) :
    (∀ f, Dir.find d (getCachePath cfg mediaId).base = some f →
      now - f.mtimeMs < CACHE_TTL_MS cfg →
      getCachedFile healthy cfg now d mediaId = (.ok (some f.content), d)) ∧
    (∀ f, Dir.find d (getCachePath cfg mediaId).base = some f →
      now - f.mtimeMs ≥ CACHE_TTL_MS cfg →
      (getCachedFile healthy cfg now d mediaId).1 = .ok none ∧
      Dir.find (getCachedFile healthy cfg now d mediaId).2 (getCachePath cfg mediaId).base
        = none) ∧
    (Dir.find d (getCachePath cfg mediaId).base = none →
      getCachedFile healthy cfg now d mediaId = (.ok none, d)) := by
  refine ⟨?_, ?_, ?_⟩
  · intro f hf hage
    exact getCachedFile_fresh cfg now d mediaId f hf hage
  · intro f hf hage
    rw [getCachedFile_stale healthy cfg now d mediaId f hf hage]
    exact ⟨rfl, find_erase_self d _⟩
  · intro hf
    exact getCachedFile_absent healthy cfg now d mediaId hf

/-- Witness of `getCachedFile_freshness_boundary`: an artifact stored at clock
0 under a one-hour TTL is served at 3599999 ms and is deleted at 3600000 ms. -/
theorem getCachedFile_freshness_boundary_witness :
    getCachedFile healthy cfgDefault 3599999
        [((getCachePath cfgDefault "m1").base, ⟨[7], 0⟩)] "m1"
      = (.ok (some [7]), [((getCachePath cfgDefault "m1").base, ⟨[7], 0⟩)]) ∧
    ((getCachedFile healthy cfgDefault 3600000
        [((getCachePath cfgDefault "m1").base, ⟨[7], 0⟩)] "m1").1 = .ok none ∧
      Dir.find (getCachedFile healthy cfgDefault 3600000
        [((getCachePath cfgDefault "m1").base, ⟨[7], 0⟩)] "m1").2
        (getCachePath cfgDefault "m1").base = none) ∧
    getCachedFile healthy cfgDefault 3600000 [] "m1" = (.ok none, []) :=
  ⟨(getCachedFile_freshness_boundary cfgDefault 3599999
      [((getCachePath cfgDefault "m1").base, ⟨[7], 0⟩)] "m1").1 ⟨[7], 0⟩
      (find_cons_self _ _ _) (by decide),
   (getCachedFile_freshness_boundary cfgDefault 3600000
      [((getCachePath cfgDefault "m1").base, ⟨[7], 0⟩)] "m1").2.1 ⟨[7], 0⟩
      (find_cons_self _ _ _) (by decide),
   (getCachedFile_freshness_boundary cfgDefault 3600000 [] "m1").2.2 rfl⟩

/-! ## C5: a failed download -/

/-- C5. For an id with known metadata that is a cache miss, when the download
throws `e`, `fetchMedia` answers with the server-error response whose
`message` is `e.message` (status 500, `success` false, no bytes), the download
was attempted once, `cacheFile` is never called, and afterwards no artifact is
stored under the id's key. -/
theorem fetchMedia_download_failure (env : Env) (d : Dir) (mediaId : String)
    (metadata : Metadata) (e : JsError)
    (hmeta : env.getMediaById mediaId = .ok (some metadata))
    (hmiss : (getCachedFile env.faults env.cfg env.now d mediaId).1 = .ok none)
    (hdl : env.downloadFile metadata.telegram_file_id = .error e) :
    (fetchMedia env d mediaId).response
      = .json 500 false "Failed to fetch file" (some e.message) ∧
    (fetchMedia env d mediaId).response.status = 500 ∧
    (fetchMedia env d mediaId).response.isSuccess = false ∧
    (fetchMedia env d mediaId).response.body? = none ∧
    downloadCount (fetchMedia env d mediaId).calls = 1 ∧
    cacheWriteCount (fetchMedia env d mediaId).calls = 0 ∧
    Dir.find (fetchMedia env d mediaId).dir (getCachePath env.cfg mediaId).base = none := by
  have hkey := getCachedFile_miss_find env.faults env.cfg env.now d mediaId hmiss
  unfold fetchMedia
  rw [hmeta]
  rcases hg : getCachedFile env.faults env.cfg env.now d mediaId with ⟨r, d1⟩
  rw [hg] at hmiss hkey
  simp only at hmiss hkey
  subst hmiss
  simp only [hdl]
  simp [serverError, Response.status, Response.isSuccess, Response.body?, downloadCount,
    cacheWriteCount, hkey]

/-- Witness of `fetchMedia_download_failure`: a stale artifact under the key
of `m1` (stored at clock -3600000, read at clock 1000) and a download that
fails. -/
theorem fetchMedia_download_failure_witness :
    (fetchMedia envDownloadFails
        [((getCachePath cfgDefault "m1").base, ⟨[7], -3600000⟩)] "m1").response
      = .json 500 false "Failed to fetch file"
          (some "Failed to download from Telegram: timeout") ∧
    (fetchMedia envDownloadFails
        [((getCachePath cfgDefault "m1").base, ⟨[7], -3600000⟩)] "m1").response.isSuccess
      = false ∧
    downloadCount (fetchMedia envDownloadFails
        [((getCachePath cfgDefault "m1").base, ⟨[7], -3600000⟩)] "m1").calls = 1 ∧
    cacheWriteCount (fetchMedia envDownloadFails
        [((getCachePath cfgDefault "m1").base, ⟨[7], -3600000⟩)] "m1").calls = 0 ∧
    Dir.find (fetchMedia envDownloadFails
        [((getCachePath cfgDefault "m1").base, ⟨[7], -3600000⟩)] "m1").dir
      (getCachePath envDownloadFails.cfg "m1").base = none :=
  have h := fetchMedia_download_failure envDownloadFails
    [((getCachePath cfgDefault "m1").base, ⟨[7], -3600000⟩)] "m1" metaPhoto
    ⟨"Failed to download from Telegram: timeout"⟩ rfl
    (by
      have h := getCachedFile_stale envDownloadFails.faults envDownloadFails.cfg
        envDownloadFails.now [((getCachePath cfgDefault "m1").base, ⟨[7], -3600000⟩)] "m1"
        ⟨[7], -3600000⟩ (find_cons_self _ _ _) (by decide)
      rw [h])
    rfl
  ⟨h.1, h.2.2.1, h.2.2.2.2.1, h.2.2.2.2.2.1, h.2.2.2.2.2.2⟩

/-! ## C6: the sweep -/

theorem wf_append_cons (pre rest : Dir) (n : String) (f : File)
    (h : Dir.WF (pre ++ (n, f) :: rest)) :
    n ∉ pre.map Prod.fst ∧ n ∉ rest.map Prod.fst ∧ Dir.WF (pre ++ rest) := by
  unfold Dir.WF at *
  simp only [List.map_append, List.map_cons] at h ⊢
  have h1 := List.nodup_middle.1 h
  have h2 := (List.nodup_cons.1 h1)
  refine ⟨?_, ?_, h2.2⟩
  · intro hm; exact h2.1 (List.mem_append_left _ hm)
  · intro hm; exact h2.1 (List.mem_append_right _ hm)

/-- The loop, started on the not yet visited suffix of the directory, removes
the expired entries of the suffix and counts them. -/
theorem clearExpiredLoop_spec (cfg : CacheConfig) (now : Int) (suf : Dir) :
    ∀ (pre : Dir) (k : Nat), Dir.WF (pre ++ suf) →
      clearExpiredLoop cfg now (suf.map Prod.fst) (pre ++ suf) k
        = (.ok (k + (suf.filter (isExpired cfg now)).length),
            pre ++ suf.filter (isFresh cfg now)) := by
  induction suf with
  | nil => intro pre k _; simp [clearExpiredLoop]
  | cons e rest ih =>
    obtain ⟨n, f⟩ := e
    intro pre k hwf
    obtain ⟨hpre, hrest, hwf2⟩ := wf_append_cons pre rest n f hwf
    have hfind : Dir.find (pre ++ (n, f) :: rest) n = some f := by
      rw [find_append_of_not_mem pre _ n hpre]; simp [Dir.find]
    have herase : Dir.erase (pre ++ (n, f) :: rest) n = pre ++ rest := by
      rw [erase_append, erase_of_not_mem pre n hpre]
      simp [Dir.erase, erase_of_not_mem rest n hrest]
    by_cases hage : now - f.mtimeMs ≥ CACHE_TTL_MS cfg
    · have hnf : ¬ now - f.mtimeMs < CACHE_TTL_MS cfg := not_lt.mpr hage
      simp only [List.map_cons, clearExpiredLoop, fsStat, pathJoin, hfind, hage, if_true,
        fsRemove, herase]
      rw [ih pre (k + 1) hwf2]
      simp [List.filter, isExpired, isFresh, hage, hnf]
      omega
    · have hf : now - f.mtimeMs < CACHE_TTL_MS cfg := not_le.mp hage
      simp only [List.map_cons, clearExpiredLoop, fsStat, pathJoin, hfind, hage, if_false]
      have hassoc : pre ++ (n, f) :: rest = (pre ++ [(n, f)]) ++ rest := by simp
      rw [hassoc, ih (pre ++ [(n, f)]) k (hassoc ▸ hwf)]
      simp [List.filter, isExpired, isFresh, hage, hf]

theorem clearExpiredCache_eq (cfg : CacheConfig) (now : Int) (d : Dir) (hwf : d.WF) :
    clearExpiredCache cfg now d
      = (.ok (d.filter (isExpired cfg now)).length, d.filter (isFresh cfg now)) := by
  have h := clearExpiredLoop_spec cfg now d [] 0 (by simpa using hwf)
  simpa [clearExpiredCache, fsReaddir] using h

theorem find_filter_of_wf (d : Dir) (p : String × File → Bool) (name : String) (f : File)
    (hwf : d.WF) (hf : Dir.find d name = some f) :
    Dir.find (d.filter p) name = if p (name, f) then some f else none := by
  induction d with
  | nil => simp [Dir.find] at hf
  | cons e rest ih =>
    obtain ⟨n, g⟩ := e
    have hw := wf_append_cons [] rest n g (by simpa using hwf)
    by_cases hn : n = name
    · subst hn
      simp only [Dir.find, if_true] at hf
      cases hf
      have hnone : Dir.find (rest.filter p) n = none := by
        apply find_none_of_not_mem
        intro hm
        obtain ⟨x, hx, hxn⟩ := List.mem_map.1 hm
        exact hw.2.1 (List.mem_map.2 ⟨x, (List.mem_filter.1 hx).1, hxn⟩)
      cases hp : p (n, f) with
      | true => simp [List.filter, hp, Dir.find]
      | false => simp [List.filter, hp, hnone]
    · simp only [Dir.find, hn, if_false] at hf
      have hrec := ih (by simpa using hw.2.2) hf
      cases hp : p (n, g) with
      | true => simp [List.filter, hp, Dir.find, hn, hrec]
      | false => simp [List.filter, hp, hrec]

theorem find_filter_none (d : Dir) (p : String × File → Bool) (name : String)
    (hf : Dir.find d name = none) : Dir.find (d.filter p) name = none := by
  induction d with
  | nil => rfl
  | cons e rest ih =>
    obtain ⟨n, g⟩ := e
    by_cases hn : n = name
    · simp [Dir.find, hn] at hf
    · simp only [Dir.find, hn, if_false] at hf
      cases hp : p (n, g) with
      | true => simp [List.filter, hp, Dir.find, hn, ih hf]
      | false => simp [List.filter, hp, ih hf]

theorem length_expired_add_fresh (cfg : CacheConfig) (now : Int) (d : Dir) :
    (d.filter (isExpired cfg now)).length + (d.filter (isFresh cfg now)).length
      = d.length := by
  induction d with
  | nil => rfl
  | cons e rest ih =>
    by_cases hage : now - e.2.mtimeMs < CACHE_TTL_MS cfg
    · have hn : ¬ CACHE_TTL_MS cfg ≤ now - e.2.mtimeMs := not_le.mpr hage
      simp [List.filter, isExpired, isFresh, hage, hn] at ih ⊢
      omega
    · have hn : CACHE_TTL_MS cfg ≤ now - e.2.mtimeMs := not_lt.mp hage
      simp [List.filter, isExpired, isFresh, hage, hn] at ih ⊢
      omega

/-- C6. On every cache directory (entry names pairwise distinct) and at every
clock value, `clearExpiredCache` returns normally; the directory afterwards is
the old one without the entries whose age is at or past the TTL, every entry
with age below the TTL is still stored with the same bytes and timestamp, no
entry appears, and the returned count is the number of entries deleted. -/
theorem clearExpiredCache_sweep (cfg : CacheConfig) (now : Int) (d : Dir) (hwf : d.WF) :
    (clearExpiredCache cfg now d).1 = .ok (d.filter (isExpired cfg now)).length ∧
    (clearExpiredCache cfg now d).2 = d.filter (isFresh cfg now) ∧
    (∀ name f, Dir.find d name = some f → now - f.mtimeMs ≥ CACHE_TTL_MS cfg →
      Dir.find (clearExpiredCache cfg now d).2 name = none) ∧
    (∀ name f, Dir.find d name = some f → now - f.mtimeMs < CACHE_TTL_MS cfg →
      Dir.find (clearExpiredCache cfg now d).2 name = some f) ∧
    (∀ name, Dir.find d name = none →
      Dir.find (clearExpiredCache cfg now d).2 name = none) ∧
    (d.filter (isExpired cfg now)).length + (clearExpiredCache cfg now d).2.length
      = d.length := by
  rw [clearExpiredCache_eq cfg now d hwf]
  refine ⟨rfl, rfl, ?_, ?_, ?_, length_expired_add_fresh cfg now d⟩
  · intro name f hf hage
    have hn : ¬ now - f.mtimeMs < CACHE_TTL_MS cfg := not_lt.mpr hage
    simp [find_filter_of_wf d _ name f hwf hf, isFresh, hn]
  · intro name f hf hage
    simp [find_filter_of_wf d _ name f hwf hf, isFresh, hage]
  · intro name hf
    exact find_filter_none d _ name hf

/-- Witness of `clearExpiredCache_sweep`: under a one-hour TTL at clock
3600000, of the entries stored at clocks 0, 1 and -5 the first and the third
are deleted and the count is 2. -/
theorem clearExpiredCache_sweep_witness :
    (clearExpiredCache cfgDefault 3600000
        [("a", ⟨[1], 0⟩), ("b", ⟨[2], 1⟩), ("c", ⟨[], -5⟩)]).1 = .ok 2 ∧
    (clearExpiredCache cfgDefault 3600000
        [("a", ⟨[1], 0⟩), ("b", ⟨[2], 1⟩), ("c", ⟨[], -5⟩)]).2 = [("b", ⟨[2], 1⟩)] :=
  ⟨(clearExpiredCache_sweep cfgDefault 3600000
      [("a", ⟨[1], 0⟩), ("b", ⟨[2], 1⟩), ("c", ⟨[], -5⟩)] (by decide)).1,
   (clearExpiredCache_sweep cfgDefault 3600000
      [("a", ⟨[1], 0⟩), ("b", ⟨[2], 1⟩), ("c", ⟨[], -5⟩)] (by decide)).2.1⟩

/-! ## C7: two sweeps in a row -/

/-- C7, as stated, fails: on an empty cache directory (and likewise on one
holding only fresh artifacts) the first `clearExpiredCache` already returns
zero. -/
theorem clearExpiredCache_twice_counterexample :
    clearExpiredCache cfgDefault 1000 [] = (.ok 0, []) ∧
    clearExpiredCache cfgDefault 1000 [("a", ⟨[1], 0⟩)] = (.ok 0, [("a", ⟨[1], 0⟩)]) ∧
    ¬ (∃ k, k ≠ 0 ∧ (clearExpiredCache cfgDefault 1000 []).1 = .ok k) := by
  refine ⟨rfl, rfl, ?_⟩
  rintro ⟨k, hk, h⟩
  have h0 : (clearExpiredCache cfgDefault 1000 []).1 = .ok 0 := rfl
  rw [h0] at h
  cases h
  exact hk rfl

/-- C7, amended: on every cache directory, the first `clearExpiredCache`
returns a non-zero count exactly when some artifact is at or past the TTL, and
a second call with no write in between, at a clock value at which no remaining
artifact has reached the TTL (the same clock value in particular), returns
zero and leaves the directory as the first call left it. -/
theorem clearExpiredCache_twice (cfg : CacheConfig) (now1 now2 : Int) (d : Dir)
    (hwf : d.WF)
    (hstill : ∀ e ∈ d, now1 - e.2.mtimeMs < CACHE_TTL_MS cfg →
      now2 - e.2.mtimeMs < CACHE_TTL_MS cfg) :
    ∃ k d1, clearExpiredCache cfg now1 d = (.ok k, d1) ∧
      (k ≠ 0 ↔ ∃ e ∈ d, now1 - e.2.mtimeMs ≥ CACHE_TTL_MS cfg) ∧
      clearExpiredCache cfg now2 d1 = (.ok 0, d1) := by
  refine ⟨_, _, clearExpiredCache_eq cfg now1 d hwf, ?_, ?_⟩
  · rw [Ne, List.length_eq_zero, List.filter_eq_nil_iff]
    simp [isExpired]
  · rw [clearExpiredCache_eq cfg now2 _ (wf_filter d _ hwf)]
    have hall : ∀ e ∈ d.filter (isFresh cfg now1), isFresh cfg now2 e = true := by
      intro e he
      obtain ⟨hmem, hfr⟩ := List.mem_filter.1 he
      simp only [isFresh, decide_eq_true_eq] at hfr ⊢
      exact hstill e hmem hfr
    have hnone : (d.filter (isFresh cfg now1)).filter (isExpired cfg now2) = [] := by
      rw [List.filter_eq_nil_iff]
      intro e he
      have := hall e he
      simp only [isFresh, isExpired, decide_eq_true_eq] at this ⊢
      exact not_le.mpr this
    rw [hnone, List.filter_eq_self.2 hall]
    rfl

/-- Witness of `clearExpiredCache_twice`: one stale and one fresh artifact,
both calls at clock 3600000. -/
theorem clearExpiredCache_twice_witness :
    ∃ k d1, clearExpiredCache cfgDefault 3600000 [("a", ⟨[1], 0⟩), ("b", ⟨[2], 1⟩)]
        = (.ok k, d1) ∧
      (k ≠ 0 ↔ ∃ e ∈ ([("a", ⟨[1], 0⟩), ("b", ⟨[2], 1⟩)] : Dir),
        (3600000 : Int) - e.2.mtimeMs ≥ CACHE_TTL_MS cfgDefault) ∧
      clearExpiredCache cfgDefault 3600000 d1 = (.ok 0, d1) :=
  clearExpiredCache_twice cfgDefault 3600000 3600000 [("a", ⟨[1], 0⟩), ("b", ⟨[2], 1⟩)]
    (by decide) (fun _ _ h => h)

/-! ## C8: overwrite -/

/-- C8. For every identifier, bytes and prior directory (one that already
holds an artifact under the key included), after `cacheFile i b` on a healthy
disk the artifact under the key of `i` has content exactly `b` and timestamp
`now`, it is the only entry under that key, every entry under another name is
as it was, and distinct names stay distinct. -/
theorem cacheFile_overwrite (cfg : CacheConfig) (now : Int) (d : Dir) (mediaId : String)
    (b : Bytes) :
    (cacheFile healthy cfg now d mediaId b).1 = .ok () ∧
    Dir.find (cacheFile healthy cfg now d mediaId b).2 (getCachePath cfg mediaId).base
      = some ⟨b, now⟩ ∧
    (cacheFile healthy cfg now d mediaId b).2.filter
      (fun e => e.1 = (getCachePath cfg mediaId).base)
      = [((getCachePath cfg mediaId).base, ⟨b, now⟩)] ∧
    (∀ name, name ≠ (getCachePath cfg mediaId).base →
      Dir.find (cacheFile healthy cfg now d mediaId b).2 name = Dir.find d name) ∧
    (d.WF → (cacheFile healthy cfg now d mediaId b).2.WF) := by
  rw [cacheFile_healthy]
  refine ⟨rfl, find_cons_self _ _ _, ?_, ?_, ?_⟩
  · have hnone : (d.erase (getCachePath cfg mediaId).base).filter
        (fun e => e.1 = (getCachePath cfg mediaId).base) = [] := by
      rw [List.filter_eq_nil_iff]
      intro e he
      have hnot := not_mem_names_erase d (getCachePath cfg mediaId).base
      simp only [decide_eq_true_eq]
      intro heq
      exact hnot (List.mem_map.2 ⟨e, he, heq⟩)
    simp [List.filter, hnone]
  · intro name hne
    have h : ¬ (getCachePath cfg mediaId).base = name := fun hh => hne hh.symm
    simp [Dir.find, h, find_erase_other d _ name hne]
  · intro hwf
    unfold Dir.WF
    simp only [List.map_cons, List.nodup_cons]
    exact ⟨not_mem_names_erase d _, wf_erase d _ hwf⟩

/-- Witness of `cacheFile_overwrite`: a write over a stale artifact of the same
key next to another entry. -/
theorem cacheFile_overwrite_witness :
    Dir.find (cacheFile healthy cfgDefault 9000000
        [("other", ⟨[9], 5⟩), ((getCachePath cfgDefault "m1").base, ⟨[7, 7, 7], 0⟩)]
        "m1" [4]).2 "other" = some ⟨[9], 5⟩ ∧
    Dir.find (cacheFile healthy cfgDefault 9000000
        [("other", ⟨[9], 5⟩), ((getCachePath cfgDefault "m1").base, ⟨[7, 7, 7], 0⟩)]
        "m1" [4]).2 (getCachePath cfgDefault "m1").base = some ⟨[4], 9000000⟩ :=
  ⟨((cacheFile_overwrite cfgDefault 9000000
      [("other", ⟨[9], 5⟩), ((getCachePath cfgDefault "m1").base, ⟨[7, 7, 7], 0⟩)]
      "m1" [4]).2.2.2.1 "other" (by
        intro h
        have hlen := congrArg String.length h
        rw [show (getCachePath cfgDefault "m1").base = md5hex "m1" from rfl,
          md5hex_length] at hlen
        exact absurd hlen (by decide))).trans
      (by simp [Dir.find]),
   (cacheFile_overwrite cfgDefault 9000000
      [("other", ⟨[9], 5⟩), ((getCachePath cfgDefault "m1").base, ⟨[7, 7, 7], 0⟩)]
      "m1" [4]).2.1⟩

/-! ## C9: a failed read of a fresh artifact -/

/-- C9. For an identifier whose artifact exists and passes the freshness
check, when `fs.readFile` throws `e`, `getCachedFile` throws `e` (it does not
return `null`) and `fetchMedia` answers with the server-error response
(status 500) carrying `e.message`, without a download and without bytes. -/
theorem getCachedFile_read_failure (env : Env) (d : Dir) (mediaId : String) (f : File)
    (e : JsError) (metadata : Metadata)
    (hf : Dir.find d (getCachePath env.cfg mediaId).base = some f)
    (hage : env.now - f.mtimeMs < CACHE_TTL_MS env.cfg)
    (hread : env.faults.read = some e)
    (hmeta : env.getMediaById mediaId = .ok (some metadata)) :
    getCachedFile env.faults env.cfg env.now d mediaId = (.error e, d) ∧
    (getCachedFile env.faults env.cfg env.now d mediaId).1 ≠ .ok none ∧
    (fetchMedia env d mediaId).response = serverError e ∧
    (fetchMedia env d mediaId).response.status = 500 ∧
    (fetchMedia env d mediaId).response.isSuccess = false ∧
    (fetchMedia env d mediaId).response.body? = none ∧
    downloadCount (fetchMedia env d mediaId).calls = 0 := by
  have hg : getCachedFile env.faults env.cfg env.now d mediaId = (.error e, d) := by
    simp [getCachedFile, isCacheValid, fsStat, fsReadFile, hf, hage, hread]
  refine ⟨hg, ?_, ?_⟩
  · rw [hg]; simp
  · simp [fetchMedia, hmeta, hg, serverError, Response.status, Response.isSuccess,
      Response.body?, downloadCount]

/-- Witness of `getCachedFile_read_failure`: a fresh artifact of `m1` on a disk
whose reads fail with `EIO`. -/
theorem getCachedFile_read_failure_witness :
    getCachedFile envReadFails.faults envReadFails.cfg envReadFails.now
        [((getCachePath cfgDefault "m1").base, ⟨[7], 0⟩)] "m1"
      = (.error readBroken, [((getCachePath cfgDefault "m1").base, ⟨[7], 0⟩)]) ∧
    (fetchMedia envReadFails [((getCachePath cfgDefault "m1").base, ⟨[7], 0⟩)] "m1").response
      = serverError readBroken ∧
    downloadCount
      (fetchMedia envReadFails [((getCachePath cfgDefault "m1").base, ⟨[7], 0⟩)] "m1").calls
      = 0 :=
  have h := getCachedFile_read_failure envReadFails
    [((getCachePath cfgDefault "m1").base, ⟨[7], 0⟩)] "m1" ⟨[7], 0⟩ readBroken metaPhoto
    (find_cons_self _ _ _) (by decide) rfl rfl
  ⟨h.1, h.2.2.1, h.2.2.2.2.2.2⟩

/-! ## C10: the cache key -/

set_option maxRecDepth 1000000 in
/-- The RFC 1321 test suite: the digest of the empty string. -/
theorem md5hex_empty : md5hex "" = "d41d8cd98f00b204e9800998ecf8427e" := by decide

set_option maxRecDepth 1000000 in
/-- The RFC 1321 test suite: the digest of `abc`. -/
theorem md5hex_abc : md5hex "abc" = "900150983cd24fb0d6963f7d28e17f72" := by decide

set_option maxRecDepth 1000000 in
/-- A two-block message with non-ASCII characters, as Node hashes it. -/
theorem md5hex_two_blocks :
    md5hex "日本/../aaaaaaaaaaaaaaaaaaaaaaaaaaaaaaaaaaaaaaaaaaaaaaaaaaaaaaaaaaaaaaaaaaaaaaaa"
      = "a3b1e5983b5a0136aabaca3bb1ec338e" := by decide

/-- C10. For every identifier string, `getCachePath` is the cache directory
joined with a file name that is the MD5 hex digest of the identifier: exactly
32 characters, each one of `0-9a-f` (so none is a separator or a dot), the
same whatever the configuration, and equal identifiers give equal paths. -/
theorem getCachePath_hex_key (cfg : CacheConfig) (mediaId : String) :
    getCachePath cfg mediaId = pathJoin (CACHE_DIR cfg) (md5hex mediaId) ∧
    (getCachePath cfg mediaId).dir = CACHE_DIR cfg ∧
    (getCachePath cfg mediaId).base.length = 32 ∧
    (∀ c ∈ (getCachePath cfg mediaId).base.toList, c ∈ hexChars) ∧
    (∀ c ∈ (getCachePath cfg mediaId).base.toList, c ≠ '/' ∧ c ≠ '.') ∧
    (∀ cfg2 : CacheConfig, (getCachePath cfg2 mediaId).base = (getCachePath cfg mediaId).base) ∧
    (∀ other : String, other = mediaId → getCachePath cfg other = getCachePath cfg mediaId) := by
  refine ⟨rfl, rfl, md5hex_length mediaId, hexEncode_chars _, ?_, fun _ => rfl, ?_⟩
  · intro c hc
    have hmem : c ∈ hexChars := hexEncode_chars _ c hc
    constructor
    · intro h; subst h; exact absurd hmem (by decide)
    · intro h; subst h; exact absurd hmem (by decide)
  · intro other h
    rw [h]

set_option maxRecDepth 1000000 in
/-- Witness of `getCachePath_hex_key`: an identifier with separators and dots. -/
theorem getCachePath_hex_key_witness :
    getCachePath cfgDefault "../../etc/passwd"
      = ⟨"./cache", "425be980bfb7680d223bc54a998d25a2"⟩ ∧
    (getCachePath cfgDefault "../../etc/passwd").base.length = 32 ∧
    getCachePath cfgDefault "../../etc/passwd" = getCachePath cfgDefault "../../etc/passwd" :=
  ⟨by decide, (getCachePath_hex_key cfgDefault "../../etc/passwd").2.2.1,
   (getCachePath_hex_key cfgDefault "../../etc/passwd").2.2.2.2.2.2 "../../etc/passwd" rfl⟩

/-! ## C11: an identifier without metadata -/

/-- C11. For every identifier for which `getMediaById` returns `null`,
`fetchMedia` answers with the not-found response (status 404), its only call
is the metadata lookup (no cache lookup, no download, no cache write), and
the cache directory is as it was, whatever the storage layer or Telegram
would have done. -/
theorem fetchMedia_unknown_id (env : Env) (d : Dir) (mediaId : String)
    (hmeta : env.getMediaById mediaId = .ok none) :
    (fetchMedia env d mediaId).response = notFound ∧
    (fetchMedia env d mediaId).response.status = 404 ∧
    (fetchMedia env d mediaId).response.isSuccess = false ∧
    (fetchMedia env d mediaId).calls = [.getMediaById mediaId] ∧
    cacheLookupCount (fetchMedia env d mediaId).calls = 0 ∧
    downloadCount (fetchMedia env d mediaId).calls = 0 ∧
    cacheWriteCount (fetchMedia env d mediaId).calls = 0 ∧
    (fetchMedia env d mediaId).dir = d := by
  simp [fetchMedia, hmeta, notFound, Response.status, Response.isSuccess, cacheLookupCount,
    downloadCount, cacheWriteCount]

/-- Witness of `fetchMedia_unknown_id`: the id `nope`, unknown to the
repository, requested while the directory holds a stale and a fresh entry. -/
theorem fetchMedia_unknown_id_witness :
    envAllFail.getMediaById "nope" = .ok none ∧
    (fetchMedia envAllFail [("a", ⟨[1], -9000000⟩), ("b", ⟨[2], 999⟩)] "nope").response
      = .json 404 false "Media not found" none ∧
    (fetchMedia envAllFail [("a", ⟨[1], -9000000⟩), ("b", ⟨[2], 999⟩)] "nope").calls
      = [.getMediaById "nope"] ∧
    (fetchMedia envAllFail [("a", ⟨[1], -9000000⟩), ("b", ⟨[2], 999⟩)] "nope").dir
      = [("a", ⟨[1], -9000000⟩), ("b", ⟨[2], 999⟩)] :=
  have h := fetchMedia_unknown_id envAllFail
    [("a", ⟨[1], -9000000⟩), ("b", ⟨[2], 999⟩)] "nope" rfl
  ⟨rfl, h.1, h.2.2.2.1, h.2.2.2.2.2.2.2⟩

/-! ## C12: clearing the whole cache -/

/-- C12. For every cache directory and every identifier (one that was cached
before included), after `clearAllCache` the directory holds no entry, nothing
is stored under the identifier's key, and `getCachedFile` returns `null`,
at every clock value and whatever the storage layer does on reads. -/
theorem clearAllCache_then_getCachedFile (faults : Faults) (cfg : CacheConfig) (now : Int)
    (d : Dir) (mediaId : String) :
    clearAllCache d = [] ∧
    fsReaddir (clearAllCache d) = [] ∧
    (∀ name, Dir.find (clearAllCache d) name = none) ∧
    getCachedFile faults cfg now (clearAllCache d) mediaId = (.ok none, []) :=
  ⟨rfl, rfl, fun _ => rfl, rfl⟩

/-- Witness of `clearAllCache_then_getCachedFile`: the artifact of `m1`,
stored at clock 0, is served at clock 1000 before the clear and is a miss
after it. -/
theorem clearAllCache_then_getCachedFile_witness :
    (getCachedFile healthy cfgDefault 1000
      [((getCachePath cfgDefault "m1").base, ⟨[7], 0⟩), ("other", ⟨[9], 5⟩)] "m1").1
      = .ok (some [7]) ∧
    clearAllCache [((getCachePath cfgDefault "m1").base, ⟨[7], 0⟩), ("other", ⟨[9], 5⟩)]
      = [] ∧
    getCachedFile healthy cfgDefault 1000
      (clearAllCache [((getCachePath cfgDefault "m1").base, ⟨[7], 0⟩), ("other", ⟨[9], 5⟩)])
      "m1" = (.ok none, []) :=
  have h := clearAllCache_then_getCachedFile healthy cfgDefault 1000
    [((getCachePath cfgDefault "m1").base, ⟨[7], 0⟩), ("other", ⟨[9], 5⟩)] "m1"
  ⟨by rw [getCachedFile_fresh cfgDefault 1000 _ "m1" ⟨[7], 0⟩ (find_cons_self _ _ _)
      (by decide)], h.1, h.2.2.2⟩

end TeleBlob
